import Mathlib

/-!
# Session navigator of `src/src/App.js`

Shallow embedding of the screen/session state machine of the drone-delivery
demo app: the static reference data (`LOCATIONS`, `MERCHANTS`), the screen and
order-status enumerations, the reactive guard effect, the timer-driven order
progression effect, the UI event handlers, and a small-step intent semantics
over sessions (each intent corresponds to a UI callback that the rendered
view exposes, firing only when its control is rendered and enabled).

The app represents screens and order statuses as string literals drawn from
closed sets (`SCREENS`, the `steps` list in `Tracking`); they are embedded as
enumerations.
-/

namespace VPark

/-- The `SCREENS` enumeration of App.js (lines 82-90). -/
inductive Screen
  | LANDING
  | AUTH
  | DESTINATION
  | MERCHANTS
  | MERCHANT_DETAIL
  | TRACKING
  | UNLOCK
  deriving DecidableEq, Repr

/-- The seven order statuses, in the order of the `steps` list of the
`Tracking` component (lines 708-716) and of the progression effect. -/
inductive OrderStatus
  | PLACED
  | ACCEPTED
  | PREPARING
  | READY
  | PICKED_UP
  | IN_FLIGHT
  | DELIVERED
  deriving DecidableEq, Repr

/-- An arrive point record (field `type` is the string "shared" or "private"). -/
structure ArrivePoint where
  id : String
  label : String
  type : String
  deriving DecidableEq, Repr

/-- A location record of the static `LOCATIONS` table. -/
structure Location where
  id : String
  name : String
  subtitle : String
  arrivePoints : List ArrivePoint
  deriving DecidableEq, Repr

/-- A merchant record of the static `MERCHANTS` table (`isOpen` embeds the
source field `open`, a reserved word in Lean). -/
structure Merchant where
  id : String
  name : String
  category : String
  etaMins : Nat
  isOpen : Bool
  chownowUrl : String
  tags : List String
  deriving DecidableEq, Repr

/-- A mock order, created by the checkout handler (lines 322-327). -/
structure Order where
  id : String
  status : OrderStatus
  merchantName : String
  eta : Nat
  deriving DecidableEq, Repr

/-- The static `LOCATIONS` table (lines 23-45). -/
def LOCATIONS : List Location :=
  [ { id := "vp-launch-fishers"
    , name := "Launch Fishers"
    , subtitle := "Shared pickup"
    , arrivePoints :=
        [ { id := "AP-101", label := "AP-101 • Lobby", type := "shared" }
        , { id := "AP-102", label := "AP-102 • Suite Wing", type := "shared" } ] }
  , { id := "vp-building-a"
    , name := "Visionary Park Building A"
    , subtitle := "Private pickup"
    , arrivePoints :=
        [ { id := "AP-201", label := "AP-201 • Main Entrance", type := "private" } ] }
  , { id := "vp-building-b"
    , name := "Visionary Park Building B"
    , subtitle := "Private pickup"
    , arrivePoints :=
        [ { id := "AP-301", label := "AP-301 • Mail Room", type := "private" } ] } ]

/-- The static `MERCHANTS` table (lines 47-75). -/
def MERCHANTS : List Merchant :=
  [ { id := "merchant-1"
    , name := "Sushi & Bowls"
    , category := "Asian"
    , etaMins := 28
    , isOpen := true
    , chownowUrl := "https://order.chownow.com/placeholders/merchant-1"
    , tags := ["Fresh", "Light", "Popular"] }
  , { id := "merchant-2"
    , name := "Garlic Noodle House"
    , category := "Noodles"
    , etaMins := 32
    , isOpen := true
    , chownowUrl := "https://order.chownow.com/placeholders/merchant-2"
    , tags := ["Savory", "Medium spice"] }
  , { id := "merchant-3"
    , name := "Grill & Greens"
    , category := "Bowls"
    , etaMins := 24
    , isOpen := false
    , chownowUrl := "https://order.chownow.com/placeholders/merchant-3"
    , tags := ["Protein", "Clean"] } ]

/-- The session state owned by the `App` component: the six `useState` cells
that the navigator mutates (`showHow` is cosmetic and omitted). `user` holds
the phone of the authenticated user (`{ phone }` in the source). -/
structure Session where
  screen : Screen
  user : Option String
  locationId : String
  arrivePointId : String
  selectedMerchantId : Option String
  order : Option Order
  deriving DecidableEq, Repr

/-- `LOCATIONS.find((l) => l.id === locationId) || null` (lines 178-181). -/
def findLocation (locId : String) : Option Location :=
  LOCATIONS.find? (fun l => l.id == locId)

/-- `MERCHANTS.find((m) => m.id === selectedMerchantId) || null` (lines 197-200). -/
def findMerchant (mid : String) : Option Merchant :=
  MERCHANTS.find? (fun m => m.id == mid)

/-- The `selectedMerchant` memo of the session. -/
def selectedMerchant (s : Session) : Option Merchant :=
  match s.selectedMerchantId with
  | some mid => findMerchant mid
  | none => none

/-- The "Simple guardrails" reactive effect (lines 223-230), run after every
state mutation.  The two `if` statements both test the pre-effect state (the
two queued `setScreen` calls cannot both fire since their conditions on `user`
are exclusive); the embedding applies them in source order.  An empty string
is falsy in JS, so `!locationId` becomes `locationId = ""`. -/
def guard (s : Session) : Session :=
  if s.screen = Screen.LANDING then s
  else
    let s1 :=
      if s.user = none ∧ s.screen ≠ Screen.AUTH then
        { s with screen := Screen.AUTH }
      else s
    if s.user ≠ none ∧ (s.locationId = "" ∨ s.arrivePointId = "") ∧
        s.screen ≠ Screen.DESTINATION ∧ s.screen ≠ Screen.AUTH then
      { s1 with screen := Screen.DESTINATION }
    else s1

/-- Successor along the fixed status sequence of the progression effect
(lines 212-217); `DELIVERED` has no scheduled successor. -/
def nextStatus : OrderStatus → OrderStatus
  | OrderStatus.PLACED => OrderStatus.ACCEPTED
  | OrderStatus.ACCEPTED => OrderStatus.PREPARING
  | OrderStatus.PREPARING => OrderStatus.READY
  | OrderStatus.READY => OrderStatus.PICKED_UP
  | OrderStatus.PICKED_UP => OrderStatus.IN_FLIGHT
  | OrderStatus.IN_FLIGHT => OrderStatus.DELIVERED
  | OrderStatus.DELIVERED => OrderStatus.DELIVERED

/-- Index of a status in the `steps` list of `Tracking`
(`steps.findIndex`, line 717). -/
def statusIdx : OrderStatus → Nat
  | OrderStatus.PLACED => 0
  | OrderStatus.ACCEPTED => 1
  | OrderStatus.PREPARING => 2
  | OrderStatus.READY => 3
  | OrderStatus.PICKED_UP => 4
  | OrderStatus.IN_FLIGHT => 5
  | OrderStatus.DELIVERED => 6

/-- One firing of the mock order progression effect (lines 203-220): with no
order, or once `DELIVERED`, it returns early; otherwise the single matching
branch schedules the move of `status` one step forward. -/
def advanceOrderStatus (s : Session) : Session :=
  match s.order with
  | none => s
  | some o =>
    if o.status = OrderStatus.DELIVERED then s
    else { s with order := some { o with status := nextStatus o.status } }

/-- The `onPickLocation` handler (lines 292-295):
`setLocationId(id); setArrivePointId("")`. -/
def onPickLocation (s : Session) (id : String) : Session :=
  { s with locationId := id, arrivePointId := "" }

/-- The `onPickArrivePoint` handler (line 296): `setArrivePointId(id)`. -/
def onPickArrivePoint (s : Session) (id : String) : Session :=
  { s with arrivePointId := id }

/-- A location button exists for `id` iff `id` is in `LOCATIONS`
(`Destination` renders one button per entry, lines 539-551, never disabled). -/
def locationButtonExists (id : String) : Bool :=
  LOCATIONS.any (fun l => l.id == id)

/-- An arrive-point button exists for `id` iff the currently selected
location resolves and lists an arrive point with that id (`Destination`
renders buttons from `location.arrivePoints`, lines 557-575). -/
def arrivePointButtonExists (s : Session) (id : String) : Bool :=
  match findLocation s.locationId with
  | some l => l.arrivePoints.any (fun ap => ap.id == id)
  | none => false

/-- A merchant button is clickable for `id` iff `id` resolves to a merchant
and the button is not disabled (`disabled={!m.open}`, lines 617-622). -/
def merchantSelectable (id : String) : Bool :=
  match findMerchant id with
  | some m => m.isOpen
  | none => false

/-- `canContinue = Boolean(locationId && arrivePointId)` (line 532). -/
def canContinue (s : Session) : Bool :=
  s.locationId ≠ "" && s.arrivePointId ≠ ""

/-- `canUnlock = order.status === "DELIVERED"` (line 718). -/
def canUnlock (o : Order) : Bool :=
  o.status == OrderStatus.DELIVERED

/-- The mock order identifier, `VP-${Math.floor(Math.random() * 90000) + 10000}`
(line 323); `r` stands for the random draw. -/
def orderId (r : Nat) : String :=
  "VP-" ++ toString (r % 90000 + 10000)

/-- The UI intents the rendered views can fire: each constructor is one
callback wired in `App` (lines 270-350), plus `tick` for one firing of the
order-progression timer. -/
inductive Intent
  | landingContinue
  | authed (phone : String)
  | pickLocation (id : String)
  | pickArrivePoint (id : String)
  | destContinue
  | selectMerchant (id : String)
  | detailBack
  | checkout (r : Nat)
  | trackBack
  | unlock
  | unlockDone
  | tick
  deriving DecidableEq, Repr

/-- One raw intent step.  A callback is reachable only when its view is the
one rendered for the current screen (the `AnimatePresence` branches of `App`,
lines 270-350, each gated on `screen === ...` and, for detail/tracking/unlock,
on the resolved merchant or order being non-null) and its control is enabled;
otherwise the intent is a no-op. -/
def step (s : Session) : Intent → Session
  | Intent.landingContinue =>
    if s.screen = Screen.LANDING then { s with screen := Screen.AUTH } else s
  | Intent.authed phone =>
    if s.screen = Screen.AUTH then
      { s with user := some phone, screen := Screen.DESTINATION }
    else s
  | Intent.pickLocation id =>
    if s.screen = Screen.DESTINATION ∧ locationButtonExists id then
      onPickLocation s id
    else s
  | Intent.pickArrivePoint id =>
    if s.screen = Screen.DESTINATION ∧ arrivePointButtonExists s id then
      onPickArrivePoint s id
    else s
  | Intent.destContinue =>
    if s.screen = Screen.DESTINATION ∧ canContinue s then
      { s with screen := Screen.MERCHANTS }
    else s
  | Intent.selectMerchant id =>
    if s.screen = Screen.MERCHANTS ∧ merchantSelectable id then
      { s with selectedMerchantId := some id, screen := Screen.MERCHANT_DETAIL }
    else s
  | Intent.detailBack =>
    if s.screen = Screen.MERCHANT_DETAIL ∧ (selectedMerchant s).isSome then
      { s with screen := Screen.MERCHANTS }
    else s
  | Intent.checkout r =>
    match selectedMerchant s with
    | some m =>
      if s.screen = Screen.MERCHANT_DETAIL then
        { s with
          order := some
            { id := orderId r
            , status := OrderStatus.PLACED
            , merchantName := m.name
            , eta := m.etaMins }
          , screen := Screen.TRACKING }
      else s
    | none => s
  | Intent.trackBack =>
    if s.screen = Screen.TRACKING ∧ s.order.isSome then
      { s with screen := Screen.MERCHANTS }
    else s
  | Intent.unlock =>
    match s.order with
    | some o =>
      if s.screen = Screen.TRACKING ∧ canUnlock o then
        { s with screen := Screen.UNLOCK }
      else s
    | none => s
  | Intent.unlockDone =>
    if s.screen = Screen.UNLOCK ∧ s.order.isSome then
      { s with screen := Screen.MERCHANTS }
    else s
  | Intent.tick => advanceOrderStatus s

/-- The effective step: the guardrails effect reruns after every state
mutation (its dependency array lists every field it reads), so the effective
screen is the guarded one. -/
def effStep (s : Session) (i : Intent) : Session :=
  guard (step s i)

/-- The session at startup: screen `LANDING`, nothing selected, and the QR
deep-link effect (lines 172-176) writing the `location` query parameter
verbatim into `locationId` when it is present and truthy (non-empty). -/
def initSession (deepLink : Option String) : Session :=
  { screen := Screen.LANDING
  , user := none
  , locationId :=
      match deepLink with
      | some l => if l = "" then "" else l
      | none => ""
  , arrivePointId := ""
  , selectedMerchantId := none
  , order := none }

/-- Sessions reachable from some startup (any deep link) by intent steps,
each followed by the reactive guard. -/
inductive Reachable : Session → Prop
  | init (d : Option String) : Reachable (initSession d)
  | next (s : Session) (i : Intent) : Reachable s → Reachable (effStep s i)

/-- Run a list of intents from a startup session. -/
def run (d : Option String) (is : List Intent) : Session :=
  is.foldl effStep (initSession d)

/-! ## Properties of the guard -/

theorem guard_fields (s : Session) :
    (guard s).user = s.user ∧ (guard s).locationId = s.locationId ∧
    (guard s).arrivePointId = s.arrivePointId ∧
    (guard s).selectedMerchantId = s.selectedMerchantId ∧
    (guard s).order = s.order := by
  unfold guard
  split
  · exact ⟨rfl, rfl, rfl, rfl, rfl⟩
  · split <;> split <;> exact ⟨rfl, rfl, rfl, rfl, rfl⟩

theorem guard_screen_cases (s : Session) :
    (guard s).screen = s.screen ∨ (guard s).screen = Screen.AUTH ∨
    (guard s).screen = Screen.DESTINATION := by
  unfold guard
  split
  · left; rfl
  · split <;> split <;> simp

theorem guard_LANDING (s : Session) (h : s.screen = Screen.LANDING) :
    guard s = s := by
  unfold guard
  rw [if_pos h]

theorem guard_AUTH (s : Session) (h : s.screen = Screen.AUTH) :
    guard s = s := by
  unfold guard
  split
  · rfl
  · rw [if_neg (by simp [h]), if_neg (by simp [h])]

theorem guard_user_none (s : Session) (hl : s.screen ≠ Screen.LANDING)
    (hu : s.user = none) : (guard s).screen = Screen.AUTH := by
  unfold guard
  split_ifs <;> simp_all

theorem guard_force_dest (s : Session) (hu : s.user ≠ none)
    (hinc : s.locationId = "" ∨ s.arrivePointId = "")
    (hl : s.screen ≠ Screen.LANDING) :
    (guard s).screen = Screen.AUTH ∨ (guard s).screen = Screen.DESTINATION := by
  unfold guard
  split_ifs <;> simp_all
  tauto

/-! ## Properties of raw steps -/

theorem step_user_none (s : Session) (i : Intent)
    (h : (step s i).user = none) : s.user = none := by
  cases i <;>
    simp only [step, advanceOrderStatus, onPickLocation, onPickArrivePoint] at h <;>
    (try split at h) <;> (try split at h) <;> simp_all

theorem step_screen_landing (s : Session) (i : Intent)
    (h : (step s i).screen = Screen.LANDING) :
    s.screen = Screen.LANDING ∧ (step s i).user = s.user := by
  cases i <;>
    simp only [step, advanceOrderStatus, onPickLocation, onPickArrivePoint] at h ⊢ <;>
    (try split at h) <;> (try split at h) <;> simp_all

theorem step_LA (s : Session) (i : Intent)
    (hs : s.screen = Screen.LANDING ∨ s.screen = Screen.AUTH)
    (hu2 : (step s i).user = none) :
    (step s i).screen = Screen.LANDING ∨ (step s i).screen = Screen.AUTH := by
  rcases hs with hs | hs <;>
    cases i <;>
    simp only [step, advanceOrderStatus, onPickLocation, onPickArrivePoint] at hu2 ⊢ <;>
    (try split) <;> (try split) <;> simp_all

theorem step_dest (s : Session) (i : Intent) :
    ((step s i).locationId = s.locationId ∧
     (step s i).arrivePointId = s.arrivePointId) ∨
    (step s i).arrivePointId = "" ∨
    (∃ id, (step s i).locationId = s.locationId ∧
       (step s i).arrivePointId = id ∧ arrivePointButtonExists s id = true) := by
  cases i <;>
    simp only [step, advanceOrderStatus, onPickLocation, onPickArrivePoint] <;>
    (try split) <;> (try split) <;> simp_all

theorem step_order_isSome (s : Session) (i : Intent)
    (h : s.order.isSome) : (step s i).order.isSome := by
  cases i <;>
    simp only [step, advanceOrderStatus, onPickLocation, onPickArrivePoint] <;>
    (try split) <;> (try split) <;> simp_all

theorem arrivePointButtonExists_spec (s : Session) (id : String)
    (h : arrivePointButtonExists s id = true) :
    ∃ l, findLocation s.locationId = some l ∧
      ∃ ap ∈ l.arrivePoints, ap.id = id := by
  unfold arrivePointButtonExists at h
  split at h
  case _ l hl =>
    exact ⟨l, hl, by simpa [List.any_eq_true, beq_iff_eq] using h⟩
  case _ => simp at h

theorem merchantSelectable_spec (id : String)
    (h : merchantSelectable id = true) :
    ∃ m, findMerchant id = some m ∧ m.isOpen = true := by
  unfold merchantSelectable at h
  split at h
  case _ m hm => exact ⟨m, hm, h⟩
  case _ => simp at h

/-! ## The session invariant -/

/-- Invariant of all reachable sessions: an unauthenticated session is on
`LANDING` or `AUTH`; an authenticated one has left `LANDING`; an incomplete
destination keeps an authenticated session on `AUTH` or `DESTINATION`; and a
set `arrivePointId` belongs to the resolved selected location. -/
def Inv (s : Session) : Prop :=
  (s.user = none → s.screen = Screen.LANDING ∨ s.screen = Screen.AUTH) ∧
  (s.user ≠ none → s.screen ≠ Screen.LANDING) ∧
  (s.user ≠ none → (s.locationId = "" ∨ s.arrivePointId = "") →
     s.screen = Screen.AUTH ∨ s.screen = Screen.DESTINATION) ∧
  (s.arrivePointId ≠ "" →
     ∃ l, findLocation s.locationId = some l ∧
       ∃ ap ∈ l.arrivePoints, ap.id = s.arrivePointId)

theorem inv_init (d : Option String) : Inv (initSession d) := by
  cases d <;> simp [Inv, initSession]

theorem inv_effStep (s : Session) (i : Intent) (h : Inv s) :
    Inv (effStep s i) := by
  obtain ⟨h1, h2, h3, h4⟩ := h
  unfold effStep
  set t := step s i with ht
  have gf := guard_fields t
  obtain ⟨gu, gl, ga, -, -⟩ := gf
  have hscreen : (guard t).screen = Screen.LANDING → t.screen = Screen.LANDING := by
    intro hg
    rcases guard_screen_cases t with hc | hc | hc <;> simp_all
  refine ⟨?_, ?_, ?_, ?_⟩
  · -- unauthenticated: LANDING or AUTH
    intro hu
    rw [gu] at hu
    have hsu : s.user = none := step_user_none s i hu
    have hla : t.screen = Screen.LANDING ∨ t.screen = Screen.AUTH :=
      step_LA s i (h1 hsu) hu
    rcases hla with hla | hla
    · rw [guard_LANDING t hla]; left; exact hla
    · rw [guard_AUTH t hla]; right; exact hla
  · -- authenticated: not LANDING
    intro hu hg
    have htL : t.screen = Screen.LANDING := hscreen hg
    obtain ⟨hsL, huser⟩ := step_screen_landing s i htL
    rw [gu, huser] at hu
    exact h2 hu hsL
  · -- authenticated, incomplete destination: AUTH or DESTINATION
    intro hu hinc
    rw [gu] at hu
    rw [gl, ga] at hinc
    by_cases htL : t.screen = Screen.LANDING
    · exfalso
      obtain ⟨hsL, huser⟩ := step_screen_landing s i htL
      rw [huser] at hu
      exact h2 hu hsL
    · exact guard_force_dest t hu hinc htL
  · -- arrive point belongs to the resolved location
    intro hap
    rw [ga] at hap
    rw [gl, ga]
    rcases step_dest s i with ⟨hl, ha⟩ | ha | ⟨id, hl, ha, hex⟩
    · rw [hl, ha]
      rw [ha] at hap
      exact h4 hap
    · exact absurd ha hap
    · rw [hl, ha]
      exact arrivePointButtonExists_spec s id hex

theorem inv_reachable (s : Session) (h : Reachable s) : Inv s := by
  induction h with
  | init d => exact inv_init d
  | next s i _ ih => exact inv_effStep s i ih

theorem reachable_foldl (s : Session) (h : Reachable s) (is : List Intent) :
    Reachable (is.foldl effStep s) := by
  induction is generalizing s with
  | nil => exact h
  | cons i is ih => exact ih (effStep s i) (Reachable.next s i h)

theorem reachable_run (d : Option String) (is : List Intent) :
    Reachable (run d is) :=
  reachable_foldl (initSession d) (Reachable.init d) is

/-! ## The claims -/

/-- C1: for every sequence of navigation intents, whenever `user` is unset
the effective screen is `LANDING` or `AUTH`; and on every reactive check, if
the screen is not `LANDING` and `user` is absent, the guard forces the screen
to `AUTH`. -/
theorem C1_unauthenticated_landing_or_auth :
    (∀ s : Session, Reachable s → s.user = none →
       s.screen = Screen.LANDING ∨ s.screen = Screen.AUTH) ∧
    (∀ s : Session, s.screen ≠ Screen.LANDING → s.user = none →
       (guard s).screen = Screen.AUTH) :=
  ⟨fun s h hu => (inv_reachable s h).1 hu,
   fun s hl hu => guard_user_none s hl hu⟩

theorem C1_witness :
    ((initSession none).screen = Screen.LANDING ∨
      (initSession none).screen = Screen.AUTH) ∧
    (guard
        { screen := Screen.MERCHANTS, user := none, locationId := ""
        , arrivePointId := "", selectedMerchantId := none
        , order := none }).screen = Screen.AUTH :=
  ⟨C1_unauthenticated_landing_or_auth.1 (initSession none)
      (Reachable.init none) rfl,
   C1_unauthenticated_landing_or_auth.2 _ (by decide) rfl⟩

/-- C2: in every reachable session with `user` set and an incomplete
destination (`locationId` or `arrivePointId` empty), the effective screen is
never `MERCHANTS`, `MERCHANT_DETAIL`, `TRACKING` or `UNLOCK`. -/
theorem C2_incomplete_destination_screens (s : Session) (h : Reachable s)
    (hu : s.user ≠ none) (hinc : s.locationId = "" ∨ s.arrivePointId = "") :
    s.screen ≠ Screen.MERCHANTS ∧ s.screen ≠ Screen.MERCHANT_DETAIL ∧
    s.screen ≠ Screen.TRACKING ∧ s.screen ≠ Screen.UNLOCK := by
  rcases (inv_reachable s h).2.2.1 hu hinc with h3 | h3 <;> simp [h3]

theorem C2_witness :
    (effStep (effStep (initSession none) Intent.landingContinue)
        (Intent.authed "3175550123")).screen ≠ Screen.MERCHANTS ∧
    (effStep (effStep (initSession none) Intent.landingContinue)
        (Intent.authed "3175550123")).screen ≠ Screen.MERCHANT_DETAIL ∧
    (effStep (effStep (initSession none) Intent.landingContinue)
        (Intent.authed "3175550123")).screen ≠ Screen.TRACKING ∧
    (effStep (effStep (initSession none) Intent.landingContinue)
        (Intent.authed "3175550123")).screen ≠ Screen.UNLOCK :=
  C2_incomplete_destination_screens _
    (Reachable.next _ _ (Reachable.next _ _ (Reachable.init none)))
    (by decide) (by decide)

theorem statusIdx_nextStatus (st : OrderStatus)
    (h : st ≠ OrderStatus.DELIVERED) :
    statusIdx (nextStatus st) = statusIdx st + 1 := by
  cases st <;> simp_all [nextStatus, statusIdx]

/-- C3: the timer-driven progression is the `tick` intent; once `DELIVERED`
it is a no-op, and otherwise it moves the status exactly one step forward in
the fixed sequence (index `+1` in the `steps` order), changing nothing else
of the order. -/
theorem C3_advance_one_step (s : Session) (o : Order)
    (h : s.order = some o) :
    step s Intent.tick = advanceOrderStatus s ∧
    (o.status = OrderStatus.DELIVERED → advanceOrderStatus s = s) ∧
    (o.status ≠ OrderStatus.DELIVERED →
       ∃ o2, (advanceOrderStatus s).order = some o2 ∧
         o2.status = nextStatus o.status ∧
         statusIdx o2.status = statusIdx o.status + 1 ∧
         o2.id = o.id ∧ o2.merchantName = o.merchantName ∧ o2.eta = o.eta) := by
  refine ⟨rfl, ?_, ?_⟩
  · intro hd
    unfold advanceOrderStatus
    rw [h]
    simp [hd]
  · intro hd
    refine ⟨{ o with status := nextStatus o.status }, ?_, rfl,
      statusIdx_nextStatus o.status hd, rfl, rfl, rfl⟩
    simp [advanceOrderStatus, h, hd]

theorem C3_witness :
    (step
        { screen := Screen.TRACKING, user := some "3175550123"
        , locationId := "vp-launch-fishers", arrivePointId := "AP-101"
        , selectedMerchantId := some "merchant-1"
        , order := some { id := "VP-10000", status := OrderStatus.PLACED
                        , merchantName := "Sushi & Bowls", eta := 28 } }
        Intent.tick =
      advanceOrderStatus
        { screen := Screen.TRACKING, user := some "3175550123"
        , locationId := "vp-launch-fishers", arrivePointId := "AP-101"
        , selectedMerchantId := some "merchant-1"
        , order := some { id := "VP-10000", status := OrderStatus.PLACED
                        , merchantName := "Sushi & Bowls", eta := 28 } }) ∧
    (OrderStatus.PLACED = OrderStatus.DELIVERED →
       advanceOrderStatus
        { screen := Screen.TRACKING, user := some "3175550123"
        , locationId := "vp-launch-fishers", arrivePointId := "AP-101"
        , selectedMerchantId := some "merchant-1"
        , order := some { id := "VP-10000", status := OrderStatus.PLACED
                        , merchantName := "Sushi & Bowls", eta := 28 } } =
        { screen := Screen.TRACKING, user := some "3175550123"
        , locationId := "vp-launch-fishers", arrivePointId := "AP-101"
        , selectedMerchantId := some "merchant-1"
        , order := some { id := "VP-10000", status := OrderStatus.PLACED
                        , merchantName := "Sushi & Bowls", eta := 28 } }) ∧
    (OrderStatus.PLACED ≠ OrderStatus.DELIVERED →
       ∃ o2, (advanceOrderStatus
        { screen := Screen.TRACKING, user := some "3175550123"
        , locationId := "vp-launch-fishers", arrivePointId := "AP-101"
        , selectedMerchantId := some "merchant-1"
        , order := some { id := "VP-10000", status := OrderStatus.PLACED
                        , merchantName := "Sushi & Bowls", eta := 28 } }).order
           = some o2 ∧
         o2.status = nextStatus OrderStatus.PLACED ∧
         statusIdx o2.status = statusIdx OrderStatus.PLACED + 1 ∧
         o2.id = "VP-10000" ∧ o2.merchantName = "Sushi & Bowls" ∧
         o2.eta = 28) :=
  C3_advance_one_step _
    { id := "VP-10000", status := OrderStatus.PLACED
    , merchantName := "Sushi & Bowls", eta := 28 } rfl

/-- C4, counterexample: re-selecting the already-selected location does clear
the chosen arrive point.  On the destination screen with location
"vp-launch-fishers" and arrive point "AP-101" selected, picking
"vp-launch-fishers" again resets `arrivePointId` from "AP-101" to "". -/
theorem C4_counterexample :
    ({ screen := Screen.DESTINATION, user := some "3175550123"
     , locationId := "vp-launch-fishers", arrivePointId := "AP-101"
     , selectedMerchantId := none, order := none } : Session).locationId =
        "vp-launch-fishers" ∧
    ({ screen := Screen.DESTINATION, user := some "3175550123"
     , locationId := "vp-launch-fishers", arrivePointId := "AP-101"
     , selectedMerchantId := none, order := none } : Session).arrivePointId =
        "AP-101" ∧
    (step
        { screen := Screen.DESTINATION, user := some "3175550123"
        , locationId := "vp-launch-fishers", arrivePointId := "AP-101"
        , selectedMerchantId := none, order := none }
        (Intent.pickLocation "vp-launch-fishers")).arrivePointId = "" ∧
    ¬ (step
        { screen := Screen.DESTINATION, user := some "3175550123"
        , locationId := "vp-launch-fishers", arrivePointId := "AP-101"
        , selectedMerchantId := none, order := none }
        (Intent.pickLocation "vp-launch-fishers")).arrivePointId = "AP-101" := by
  refine ⟨rfl, rfl, rfl, ?_⟩
  decide

/-- C4, as amended: the pick-location handler always sets `locationId` to the
picked id and always clears `arrivePointId`, whether or not the picked id
differs from the current one; it is idempotent as an operation (applying it
twice with the same id equals applying it once). -/
theorem C4_pickLocation_amended (s : Session) (id : String) :
    (onPickLocation s id).locationId = id ∧
    (onPickLocation s id).arrivePointId = "" ∧
    onPickLocation (onPickLocation s id) id = onPickLocation s id :=
  ⟨rfl, rfl, rfl⟩

/-- C5: the unlock intent (the "Open Arrive Point" button, disabled unless
`canUnlock`) moves the screen to `UNLOCK` only when the order status is
`DELIVERED`; in any state whose status is not `DELIVERED` (or with no order)
it leaves the session unchanged. -/
theorem C5_unlock_only_delivered (s : Session) :
    (s.order = none → step s Intent.unlock = s) ∧
    (∀ o, s.order = some o → o.status ≠ OrderStatus.DELIVERED →
       step s Intent.unlock = s) ∧
    (∀ o, s.order = some o → o.status = OrderStatus.DELIVERED →
       s.screen = Screen.TRACKING →
       (step s Intent.unlock).screen = Screen.UNLOCK) ∧
    ((step s Intent.unlock).screen = Screen.UNLOCK →
       s.screen = Screen.UNLOCK ∨
       ∃ o, s.order = some o ∧ o.status = OrderStatus.DELIVERED) := by
  refine ⟨?_, ?_, ?_, ?_⟩
  · intro h
    simp [step, h]
  · intro o h hd
    simp [step, h, canUnlock, hd]
  · intro o h hd hs
    simp [step, h, canUnlock, hd, hs]
  · intro h
    simp only [step] at h
    rcases ho : s.order with _ | o
    · simp only [ho] at h
      exact Or.inl h
    · simp only [ho] at h
      split at h
      next hc => exact Or.inr ⟨o, rfl, by simpa [canUnlock] using hc.2⟩
      next => exact Or.inl h

theorem C5_witness :
    (({ screen := Screen.TRACKING, user := some "3175550123"
      , locationId := "vp-launch-fishers", arrivePointId := "AP-101"
      , selectedMerchantId := some "merchant-1"
      , order := some { id := "VP-10000", status := OrderStatus.PLACED
                      , merchantName := "Sushi & Bowls", eta := 28 } }
        : Session).order = none →
      step
        { screen := Screen.TRACKING, user := some "3175550123"
        , locationId := "vp-launch-fishers", arrivePointId := "AP-101"
        , selectedMerchantId := some "merchant-1"
        , order := some { id := "VP-10000", status := OrderStatus.PLACED
                        , merchantName := "Sushi & Bowls", eta := 28 } }
        Intent.unlock =
        { screen := Screen.TRACKING, user := some "3175550123"
        , locationId := "vp-launch-fishers", arrivePointId := "AP-101"
        , selectedMerchantId := some "merchant-1"
        , order := some { id := "VP-10000", status := OrderStatus.PLACED
                        , merchantName := "Sushi & Bowls", eta := 28 } }) ∧
    (∀ o, ({ screen := Screen.TRACKING, user := some "3175550123"
           , locationId := "vp-launch-fishers", arrivePointId := "AP-101"
           , selectedMerchantId := some "merchant-1"
           , order := some { id := "VP-10000", status := OrderStatus.PLACED
                           , merchantName := "Sushi & Bowls", eta := 28 } }
             : Session).order = some o →
       o.status ≠ OrderStatus.DELIVERED →
       step
        { screen := Screen.TRACKING, user := some "3175550123"
        , locationId := "vp-launch-fishers", arrivePointId := "AP-101"
        , selectedMerchantId := some "merchant-1"
        , order := some { id := "VP-10000", status := OrderStatus.PLACED
                        , merchantName := "Sushi & Bowls", eta := 28 } }
        Intent.unlock =
        { screen := Screen.TRACKING, user := some "3175550123"
        , locationId := "vp-launch-fishers", arrivePointId := "AP-101"
        , selectedMerchantId := some "merchant-1"
        , order := some { id := "VP-10000", status := OrderStatus.PLACED
                        , merchantName := "Sushi & Bowls", eta := 28 } }) ∧
    (∀ o, ({ screen := Screen.TRACKING, user := some "3175550123"
           , locationId := "vp-launch-fishers", arrivePointId := "AP-101"
           , selectedMerchantId := some "merchant-1"
           , order := some { id := "VP-10000", status := OrderStatus.PLACED
                           , merchantName := "Sushi & Bowls", eta := 28 } }
             : Session).order = some o →
       o.status = OrderStatus.DELIVERED →
       ({ screen := Screen.TRACKING, user := some "3175550123"
        , locationId := "vp-launch-fishers", arrivePointId := "AP-101"
        , selectedMerchantId := some "merchant-1"
        , order := some { id := "VP-10000", status := OrderStatus.PLACED
                        , merchantName := "Sushi & Bowls", eta := 28 } }
          : Session).screen = Screen.TRACKING →
       (step
        { screen := Screen.TRACKING, user := some "3175550123"
        , locationId := "vp-launch-fishers", arrivePointId := "AP-101"
        , selectedMerchantId := some "merchant-1"
        , order := some { id := "VP-10000", status := OrderStatus.PLACED
                        , merchantName := "Sushi & Bowls", eta := 28 } }
        Intent.unlock).screen = Screen.UNLOCK) ∧
    ((step
        { screen := Screen.TRACKING, user := some "3175550123"
        , locationId := "vp-launch-fishers", arrivePointId := "AP-101"
        , selectedMerchantId := some "merchant-1"
        , order := some { id := "VP-10000", status := OrderStatus.PLACED
                        , merchantName := "Sushi & Bowls", eta := 28 } }
        Intent.unlock).screen = Screen.UNLOCK →
      ({ screen := Screen.TRACKING, user := some "3175550123"
       , locationId := "vp-launch-fishers", arrivePointId := "AP-101"
       , selectedMerchantId := some "merchant-1"
       , order := some { id := "VP-10000", status := OrderStatus.PLACED
                       , merchantName := "Sushi & Bowls", eta := 28 } }
         : Session).screen = Screen.UNLOCK ∨
      ∃ o, ({ screen := Screen.TRACKING, user := some "3175550123"
            , locationId := "vp-launch-fishers", arrivePointId := "AP-101"
            , selectedMerchantId := some "merchant-1"
            , order := some { id := "VP-10000", status := OrderStatus.PLACED
                            , merchantName := "Sushi & Bowls", eta := 28 } }
              : Session).order = some o ∧
          o.status = OrderStatus.DELIVERED) :=
  C5_unlock_only_delivered
    { screen := Screen.TRACKING, user := some "3175550123"
    , locationId := "vp-launch-fishers", arrivePointId := "AP-101"
    , selectedMerchantId := some "merchant-1"
    , order := some { id := "VP-10000", status := OrderStatus.PLACED
                    , merchantName := "Sushi & Bowls", eta := 28 } }

/-- C6: the closed merchant "merchant-3" is never selectable (its button is
disabled), and any select-merchant transition into `MERCHANT_DETAIL` requires
an id resolving to a known, open merchant. -/
theorem C6_closed_merchant_not_selectable (s : Session) :
    step s (Intent.selectMerchant "merchant-3") = s ∧
    (∀ id, (step s (Intent.selectMerchant id)).screen = Screen.MERCHANT_DETAIL →
       s.screen = Screen.MERCHANT_DETAIL ∨
       ∃ m, findMerchant id = some m ∧ m.isOpen = true) := by
  constructor
  · have h3 : merchantSelectable "merchant-3" = false := by decide
    simp [step, h3]
  · intro id h
    simp only [step] at h
    split at h
    next hc => exact Or.inr (merchantSelectable_spec id hc.2)
    next => exact Or.inl h

theorem C6_witness :
    step
      { screen := Screen.MERCHANTS, user := some "3175550123"
      , locationId := "vp-launch-fishers", arrivePointId := "AP-101"
      , selectedMerchantId := none, order := none }
      (Intent.selectMerchant "merchant-3") =
      { screen := Screen.MERCHANTS, user := some "3175550123"
      , locationId := "vp-launch-fishers", arrivePointId := "AP-101"
      , selectedMerchantId := none, order := none } ∧
    (∀ id, (step
        { screen := Screen.MERCHANTS, user := some "3175550123"
        , locationId := "vp-launch-fishers", arrivePointId := "AP-101"
        , selectedMerchantId := none, order := none }
        (Intent.selectMerchant id)).screen = Screen.MERCHANT_DETAIL →
      ({ screen := Screen.MERCHANTS, user := some "3175550123"
       , locationId := "vp-launch-fishers", arrivePointId := "AP-101"
       , selectedMerchantId := none, order := none } : Session).screen =
          Screen.MERCHANT_DETAIL ∨
      ∃ m, findMerchant id = some m ∧ m.isOpen = true) :=
  C6_closed_merchant_not_selectable
    { screen := Screen.MERCHANTS, user := some "3175550123"
    , locationId := "vp-launch-fishers", arrivePointId := "AP-101"
    , selectedMerchantId := none, order := none }

/-- C7: in every reachable session, a set (non-empty) `arrivePointId` is the
id of an arrive point of the location that `locationId` resolves to. -/
theorem C7_arrive_point_belongs (s : Session) (h : Reachable s)
    (hap : s.arrivePointId ≠ "") :
    ∃ l, findLocation s.locationId = some l ∧
      ∃ ap ∈ l.arrivePoints, ap.id = s.arrivePointId :=
  (inv_reachable s h).2.2.2 hap

theorem C7_witness :
    ∃ l, findLocation
        (effStep (effStep (effStep (effStep (initSession none)
            Intent.landingContinue) (Intent.authed "3175550123"))
          (Intent.pickLocation "vp-launch-fishers"))
          (Intent.pickArrivePoint "AP-101")).locationId = some l ∧
      ∃ ap ∈ l.arrivePoints,
        ap.id = (effStep (effStep (effStep (effStep (initSession none)
            Intent.landingContinue) (Intent.authed "3175550123"))
          (Intent.pickLocation "vp-launch-fishers"))
          (Intent.pickArrivePoint "AP-101")).arrivePointId :=
  C7_arrive_point_belongs _
    (Reachable.next _ _ (Reachable.next _ _ (Reachable.next _ _
      (Reachable.next _ _ (Reachable.init none)))))
    (by decide)

/-- C8: with a resolved selected merchant, the checkout handler creates an
order with status `PLACED`, the merchant's name and eta, and the generated
identifier `VP-` followed by a five-digit number derived from the random
draw `r`, and moves the screen to `TRACKING`. -/
theorem C8_checkout_creates_order (s : Session) (m : Merchant) (r : Nat)
    (hm : selectedMerchant s = some m)
    (hs : s.screen = Screen.MERCHANT_DETAIL) :
    step s (Intent.checkout r) =
      { s with
        order := some
          { id := orderId r, status := OrderStatus.PLACED
          , merchantName := m.name, eta := m.etaMins }
        , screen := Screen.TRACKING } ∧
    orderId r = "VP-" ++ toString (r % 90000 + 10000) ∧
    10000 ≤ r % 90000 + 10000 ∧ r % 90000 + 10000 ≤ 99999 := by
  refine ⟨?_, rfl, by omega, ?_⟩
  · simp [step, hm, hs]
  · have := Nat.mod_lt r (show 0 < 90000 by norm_num)
    omega

theorem C8_witness :
    step
      { screen := Screen.MERCHANT_DETAIL, user := some "3175550123"
      , locationId := "vp-launch-fishers", arrivePointId := "AP-101"
      , selectedMerchantId := some "merchant-1", order := none }
      (Intent.checkout 12345) =
      { screen := Screen.TRACKING, user := some "3175550123"
      , locationId := "vp-launch-fishers", arrivePointId := "AP-101"
      , selectedMerchantId := some "merchant-1"
      , order := some
          { id := orderId 12345, status := OrderStatus.PLACED
          , merchantName := "Sushi & Bowls", eta := 28 } } ∧
    orderId 12345 = "VP-" ++ toString (12345 % 90000 + 10000) ∧
    10000 ≤ 12345 % 90000 + 10000 ∧ 12345 % 90000 + 10000 ≤ 99999 :=
  C8_checkout_creates_order
    { screen := Screen.MERCHANT_DETAIL, user := some "3175550123"
    , locationId := "vp-launch-fishers", arrivePointId := "AP-101"
    , selectedMerchantId := some "merchant-1", order := none }
    { id := "merchant-1", name := "Sushi & Bowls", category := "Asian"
    , etaMins := 28, isOpen := true
    , chownowUrl := "https://order.chownow.com/placeholders/merchant-1"
    , tags := ["Fresh", "Light", "Popular"] }
    12345 (by decide) rfl

/-- C9, counterexample: a reachable sequence of intents checks out twice in
one session and the second checkout overwrites the first order.  The run
authenticates, selects a destination and merchant-1, checks out, navigates
back to merchants from tracking, selects merchant-2, and checks out again;
the order record changes. -/
theorem C9_counterexample :
    Reachable (run none
      [Intent.landingContinue, Intent.authed "3175550123",
       Intent.pickLocation "vp-launch-fishers",
       Intent.pickArrivePoint "AP-101", Intent.destContinue,
       Intent.selectMerchant "merchant-1", Intent.checkout 0,
       Intent.trackBack, Intent.selectMerchant "merchant-2",
       Intent.checkout 1]) ∧
    ∃ o1 o2 : Order,
      (run none
        [Intent.landingContinue, Intent.authed "3175550123",
         Intent.pickLocation "vp-launch-fishers",
         Intent.pickArrivePoint "AP-101", Intent.destContinue,
         Intent.selectMerchant "merchant-1", Intent.checkout 0]).order =
          some o1 ∧
      (run none
        [Intent.landingContinue, Intent.authed "3175550123",
         Intent.pickLocation "vp-launch-fishers",
         Intent.pickArrivePoint "AP-101", Intent.destContinue,
         Intent.selectMerchant "merchant-1", Intent.checkout 0,
         Intent.trackBack, Intent.selectMerchant "merchant-2",
         Intent.checkout 1]).order = some o2 ∧
      o1 ≠ o2 ∧
      o1.merchantName = "Sushi & Bowls" ∧
      o2.merchantName = "Garlic Noodle House" :=
  ⟨reachable_run none _,
   { id := "VP-10000", status := OrderStatus.PLACED
   , merchantName := "Sushi & Bowls", eta := 28 },
   { id := "VP-10001", status := OrderStatus.PLACED
   , merchantName := "Garlic Noodle House", eta := 32 },
   by decide, by decide, by decide, rfl, rfl⟩

/-- C9, as amended: once an order exists it is never deleted (no step returns
the order field to absent), but it can be replaced: navigating back to the
merchants screen and checking out again overwrites it with a new order. -/
theorem C9_order_never_deleted (s : Session) (i : Intent)
    (h : s.order.isSome) : ((effStep s i).order).isSome := by
  unfold effStep
  rw [(guard_fields (step s i)).2.2.2.2]
  exact step_order_isSome s i h

theorem C9_witness :
    ((effStep
        { screen := Screen.TRACKING, user := some "3175550123"
        , locationId := "vp-launch-fishers", arrivePointId := "AP-101"
        , selectedMerchantId := some "merchant-1"
        , order := some { id := "VP-10000", status := OrderStatus.PLACED
                        , merchantName := "Sushi & Bowls", eta := 28 } }
        Intent.trackBack).order).isSome :=
  C9_order_never_deleted _ Intent.trackBack rfl

/-- C10: the deep-link parameter is applied verbatim and unvalidated; an
unknown id resolves to no location, the startup destination stays incomplete
(`arrivePointId` empty), and no reachable session reaches the merchant,
detail, tracking or unlock screens without `locationId` resolving to a known
location — destination selection cannot be skipped. -/
theorem C10_deep_link_unvalidated (p : String) (hp : p ≠ "") :
    (initSession (some p)).locationId = p ∧
    (initSession (some p)).arrivePointId = "" ∧
    ((∀ l ∈ LOCATIONS, l.id ≠ p) → findLocation p = none) ∧
    (∀ s : Session, Reachable s →
       (s.screen = Screen.MERCHANTS ∨ s.screen = Screen.MERCHANT_DETAIL ∨
        s.screen = Screen.TRACKING ∨ s.screen = Screen.UNLOCK) →
       ∃ l, findLocation s.locationId = some l) := by
  refine ⟨by simp [initSession, hp], rfl, ?_, ?_⟩
  · intro h
    unfold findLocation
    rw [List.find?_eq_none]
    intro l hl
    simpa using h l hl
  · intro s hs hscreen
    obtain ⟨h1, h2, h3, h4⟩ := inv_reachable s hs
    have hu : s.user ≠ none := by
      intro hu
      rcases h1 hu with h | h <;> rcases hscreen with hc | hc | hc | hc <;>
        simp_all
    have hcomplete : ¬ (s.locationId = "" ∨ s.arrivePointId = "") := by
      intro hinc
      rcases h3 hu hinc with h | h <;> rcases hscreen with hc | hc | hc | hc <;>
        simp_all
    push_neg at hcomplete
    obtain ⟨l, hl, -⟩ := h4 hcomplete.2
    exact ⟨l, hl⟩

theorem C10_witness :
    (initSession (some "unknown-loc")).locationId = "unknown-loc" ∧
    (initSession (some "unknown-loc")).arrivePointId = "" ∧
    ((∀ l ∈ LOCATIONS, l.id ≠ "unknown-loc") →
       findLocation "unknown-loc" = none) ∧
    (∀ s : Session, Reachable s →
       (s.screen = Screen.MERCHANTS ∨ s.screen = Screen.MERCHANT_DETAIL ∨
        s.screen = Screen.TRACKING ∨ s.screen = Screen.UNLOCK) →
       ∃ l, findLocation s.locationId = some l) :=
  C10_deep_link_unvalidated "unknown-loc" (by decide)

end VPark
